import Mathlib

/-!
Verification development for the `ig-client` real-time streaming subsystem.

The definitions below are a shallow embedding of the Rust sources:

* `src/application/client.rs` — `StreamerClient` (`connect`, `connect_client`,
  `market_subscribe`), constant `MAX_CONNECTION_ATTEMPTS`;
* `src/application/dynamic_streamer.rs` — `DynamicMarketStreamer`
  (`add`, `remove`, `clear`, `reconnect`, `start_internal`);
* `src/presentation/price.rs` — `PriceData`, `PriceFields`, `DealingFlag`,
  `create_price_fields`, `from_item_update`, `impl From<&ItemUpdate>`;
* `src/presentation/account.rs` — `AccountFields`, `create_account_fields`.

Modelling conventions: Rust `HashMap<String, Option<String>>` becomes an
association list `List (String × Option String)` (`get` is `List.lookup`);
`f64` values are modelled as exact decimal values (`Decimal`, an integer
numerator over a power-of-ten denominator, with `Decimal.toRat` its
rational value), with `parseF64` embedding the finite part of Rust's
`f64::from_str` grammar (non-finite literals `inf`/`nan` are outside this
exact-value model); `Result<T, String>` becomes `Except String T`; the
async runtime is modelled sequentially, with timed waits and connection
side effects recorded as explicit events.
-/

namespace IgClient

/-! ## Field codec: numeric fields (price.rs / account.rs) -/

/-- Exact value of a finite decimal literal, `num / 10 ^ den10`: the value
a well-formed numeric wire string denotes, kept exact instead of rounded to
a binary float. -/
structure Decimal where
  num : ℤ
  den10 : ℕ
  deriving DecidableEq

/-- Rational value of a `Decimal`. -/
def Decimal.toRat (d : Decimal) : ℚ := (d.num : ℚ) / 10 ^ d.den10

/-- Numeric value of a list of decimal digit characters, most significant
first (the usual left fold used when parsing digit runs). -/
def digitsVal (l : List Char) : ℕ :=
  l.foldl (fun a c => a * 10 + (c.toNat - 48)) 0

/-- Exponent-suffix step of the `f64` grammar: an empty remainder keeps the
mantissa; `e`/`E`, an optional sign and a nonempty digit run scale the
mantissa by the corresponding power of ten; anything else is a parse
failure. -/
def parseExp (mant : Decimal) (cs : List Char) : Option Decimal :=
  match cs with
  | [] => some mant
  | e :: t =>
    if e = 'e' ∨ e = 'E' then
      let st : Bool × List Char :=
        match t with
        | c :: r =>
          if c = '+' then (true, r)
          else if c = '-' then (false, r)
          else (true, t)
        | [] => (true, t)
      let ds := st.2.takeWhile Char.isDigit
      let rest := st.2.dropWhile Char.isDigit
      if ds = [] ∨ rest ≠ [] then none
      else if st.1 then
        some { num := mant.num * 10 ^ digitsVal ds, den10 := mant.den10 }
      else
        some { num := mant.num, den10 := mant.den10 + digitsVal ds }
    else none

/-- Embedding of the finite part of Rust's `f64::from_str` grammar
(`Sign? (Digits '.'? Digits? Exp? | '.' Digits Exp?)`), returning the
exact decimal value. A string outside the grammar parses to `none`. -/
def parseF64 (s : String) : Option Decimal :=
  let cs := s.toList
  let sc : ℤ × List Char :=
    match cs with
    | c :: t =>
      if c = '+' then (1, t)
      else if c = '-' then (-1, t)
      else (1, cs)
    | [] => (1, cs)
  let ip := sc.2.takeWhile Char.isDigit
  let r1 := sc.2.dropWhile Char.isDigit
  match r1 with
  | c :: r2 =>
    if c = '.' then
      let fp := r2.takeWhile Char.isDigit
      let r3 := r2.dropWhile Char.isDigit
      if ip = [] ∧ fp = [] then none
      else parseExp
        { num := sc.1 * (digitsVal ip * 10 ^ fp.length + digitsVal fp)
          den10 := fp.length } r3
    else if ip = [] then none
    else parseExp { num := sc.1 * digitsVal ip, den10 := 0 } r1
  | [] =>
    if ip = [] then none
    else parseExp { num := sc.1 * digitsVal ip, den10 := 0 } []

/-- `get_field` closure shared by `PriceData::create_price_fields` and
`AccountData::create_account_fields`:
`fields_map.get(key).cloned().flatten()`. -/
def get_field (fields_map : List (String × Option String)) (key : String) :
    Option String :=
  (fields_map.lookup key).join

/-- `parse_float` closure shared by `PriceData::create_price_fields` and
`AccountData::create_account_fields`: a present, nonempty string is parsed
as a float (parse failure is a decode error); a missing or empty value
decodes to `Ok(None)`. -/
def parse_float (fields_map : List (String × Option String)) (key : String) :
    Except String (Option Decimal) :=
  match get_field fields_map key with
  | some val =>
    if val ≠ "" then
      match parseF64 val with
      | some q => .ok (some q)
      | none => .error ("Failed to parse " ++ key ++ " as float: " ++ val)
    else .ok none
  | none => .ok none

/-! ## Field codec: price records (price.rs) -/

/-- Market dealing status flags (`DealingFlag` in price.rs); `Closed` is the
`#[default]` variant. -/
inductive DealingFlag where
  | Closed
  | Call
  | Deal
  | Edit
  | ClosingOnly
  | DealNoEdit
  | Auction
  | AuctionNoEdit
  | Suspend
  deriving DecidableEq

/-- The dealing-flag match of `create_price_fields` (price.rs lines
604–616): a closed set of nine case-sensitive wire tokens; a present
unknown token is a hard decode error; a missing value decodes to `none`. -/
def parse_dealing_flag (fields_map : List (String × Option String)) :
    Except String (Option DealingFlag) :=
  match get_field fields_map "DLG_FLAG" with
  | some "CLOSED" => .ok (some DealingFlag.Closed)
  | some "CALL" => .ok (some DealingFlag.Call)
  | some "DEAL" => .ok (some DealingFlag.Deal)
  | some "EDIT" => .ok (some DealingFlag.Edit)
  | some "CLOSINGONLY" => .ok (some DealingFlag.ClosingOnly)
  | some "DEALNOEDIT" => .ok (some DealingFlag.DealNoEdit)
  | some "AUCTION" => .ok (some DealingFlag.Auction)
  | some "AUCTIONNOEDIT" => .ok (some DealingFlag.AuctionNoEdit)
  | some "SUSPEND" => .ok (some DealingFlag.Suspend)
  | some unknown => .error ("Unknown dealing flag: " ++ unknown)
  | none => .ok none

/-- The nine documented `DLG_FLAG` wire tokens, in source order. -/
def dealingFlagTokens : List String :=
  ["CLOSED", "CALL", "DEAL", "EDIT", "CLOSINGONLY", "DEALNOEDIT",
   "AUCTION", "AUCTIONNOEDIT", "SUSPEND"]

/-- `PriceFields` (price.rs): the typed projection of a price update's wire
field map.  `f64` fields are modelled as `Option Decimal`. -/
structure PriceFields where
  mid_open : Option Decimal
  high : Option Decimal
  low : Option Decimal
  bid_quote_id : Option String
  ask_quote_id : Option String
  bid_price1 : Option Decimal
  bid_price2 : Option Decimal
  bid_price3 : Option Decimal
  bid_price4 : Option Decimal
  bid_price5 : Option Decimal
  ask_price1 : Option Decimal
  ask_price2 : Option Decimal
  ask_price3 : Option Decimal
  ask_price4 : Option Decimal
  ask_price5 : Option Decimal
  bid_size1 : Option Decimal
  bid_size2 : Option Decimal
  bid_size3 : Option Decimal
  bid_size4 : Option Decimal
  bid_size5 : Option Decimal
  ask_size1 : Option Decimal
  ask_size2 : Option Decimal
  ask_size3 : Option Decimal
  ask_size4 : Option Decimal
  ask_size5 : Option Decimal
  currency0 : Option String
  currency1 : Option String
  currency2 : Option String
  currency3 : Option String
  currency4 : Option String
  currency5 : Option String
  c1_bid_size_1 : Option Decimal
  c1_bid_size_2 : Option Decimal
  c1_bid_size_3 : Option Decimal
  c1_bid_size_4 : Option Decimal
  c1_bid_size_5 : Option Decimal
  c2_bid_size_1 : Option Decimal
  c2_bid_size_2 : Option Decimal
  c2_bid_size_3 : Option Decimal
  c2_bid_size_4 : Option Decimal
  c2_bid_size_5 : Option Decimal
  c3_bid_size_1 : Option Decimal
  c3_bid_size_2 : Option Decimal
  c3_bid_size_3 : Option Decimal
  c3_bid_size_4 : Option Decimal
  c3_bid_size_5 : Option Decimal
  c4_bid_size_1 : Option Decimal
  c4_bid_size_2 : Option Decimal
  c4_bid_size_3 : Option Decimal
  c4_bid_size_4 : Option Decimal
  c4_bid_size_5 : Option Decimal
  c5_bid_size_1 : Option Decimal
  c5_bid_size_2 : Option Decimal
  c5_bid_size_3 : Option Decimal
  c5_bid_size_4 : Option Decimal
  c5_bid_size_5 : Option Decimal
  c1_ask_size_1 : Option Decimal
  c1_ask_size_2 : Option Decimal
  c1_ask_size_3 : Option Decimal
  c1_ask_size_4 : Option Decimal
  c1_ask_size_5 : Option Decimal
  c2_ask_size_1 : Option Decimal
  c2_ask_size_2 : Option Decimal
  c2_ask_size_3 : Option Decimal
  c2_ask_size_4 : Option Decimal
  c2_ask_size_5 : Option Decimal
  c3_ask_size_1 : Option Decimal
  c3_ask_size_2 : Option Decimal
  c3_ask_size_3 : Option Decimal
  c3_ask_size_4 : Option Decimal
  c3_ask_size_5 : Option Decimal
  c4_ask_size_1 : Option Decimal
  c4_ask_size_2 : Option Decimal
  c4_ask_size_3 : Option Decimal
  c4_ask_size_4 : Option Decimal
  c4_ask_size_5 : Option Decimal
  c5_ask_size_1 : Option Decimal
  c5_ask_size_2 : Option Decimal
  c5_ask_size_3 : Option Decimal
  c5_ask_size_4 : Option Decimal
  c5_ask_size_5 : Option Decimal
  timestamp : Option Decimal
  dealing_flag : Option DealingFlag
  deriving DecidableEq

/-- `PriceFields::default()` (derived `Default` in price.rs): every field
is `None`. -/
def PriceFields.default : PriceFields where
  mid_open := none
  high := none
  low := none
  bid_quote_id := none
  ask_quote_id := none
  bid_price1 := none
  bid_price2 := none
  bid_price3 := none
  bid_price4 := none
  bid_price5 := none
  ask_price1 := none
  ask_price2 := none
  ask_price3 := none
  ask_price4 := none
  ask_price5 := none
  bid_size1 := none
  bid_size2 := none
  bid_size3 := none
  bid_size4 := none
  bid_size5 := none
  ask_size1 := none
  ask_size2 := none
  ask_size3 := none
  ask_size4 := none
  ask_size5 := none
  currency0 := none
  currency1 := none
  currency2 := none
  currency3 := none
  currency4 := none
  currency5 := none
  c1_bid_size_1 := none
  c1_bid_size_2 := none
  c1_bid_size_3 := none
  c1_bid_size_4 := none
  c1_bid_size_5 := none
  c2_bid_size_1 := none
  c2_bid_size_2 := none
  c2_bid_size_3 := none
  c2_bid_size_4 := none
  c2_bid_size_5 := none
  c3_bid_size_1 := none
  c3_bid_size_2 := none
  c3_bid_size_3 := none
  c3_bid_size_4 := none
  c3_bid_size_5 := none
  c4_bid_size_1 := none
  c4_bid_size_2 := none
  c4_bid_size_3 := none
  c4_bid_size_4 := none
  c4_bid_size_5 := none
  c5_bid_size_1 := none
  c5_bid_size_2 := none
  c5_bid_size_3 := none
  c5_bid_size_4 := none
  c5_bid_size_5 := none
  c1_ask_size_1 := none
  c1_ask_size_2 := none
  c1_ask_size_3 := none
  c1_ask_size_4 := none
  c1_ask_size_5 := none
  c2_ask_size_1 := none
  c2_ask_size_2 := none
  c2_ask_size_3 := none
  c2_ask_size_4 := none
  c2_ask_size_5 := none
  c3_ask_size_1 := none
  c3_ask_size_2 := none
  c3_ask_size_3 := none
  c3_ask_size_4 := none
  c3_ask_size_5 := none
  c4_ask_size_1 := none
  c4_ask_size_2 := none
  c4_ask_size_3 := none
  c4_ask_size_4 := none
  c4_ask_size_5 := none
  c5_ask_size_1 := none
  c5_ask_size_2 := none
  c5_ask_size_3 := none
  c5_ask_size_4 := none
  c5_ask_size_5 := none
  timestamp := none
  dealing_flag := none

/-- `PriceData::create_price_fields` (price.rs lines 586–727): the dealing
flag is decoded first (its unknown-token error aborts the whole record),
then every numeric field is decoded with `parse_float` and the two quote
ids and six currencies pass through `get_field` unchanged. -/
def create_price_fields (fields_map : List (String × Option String)) :
    Except String PriceFields := do
  let dealing_flag ← parse_dealing_flag fields_map
  let mid_open ← parse_float fields_map "MID_OPEN"
  let high ← parse_float fields_map "HIGH"
  let low ← parse_float fields_map "LOW"
  let bid_quote_id := get_field fields_map "BIDQUOTEID"
  let ask_quote_id := get_field fields_map "ASKQUOTEID"
  let bid_price1 ← parse_float fields_map "BIDPRICE1"
  let bid_price2 ← parse_float fields_map "BIDPRICE2"
  let bid_price3 ← parse_float fields_map "BIDPRICE3"
  let bid_price4 ← parse_float fields_map "BIDPRICE4"
  let bid_price5 ← parse_float fields_map "BIDPRICE5"
  let ask_price1 ← parse_float fields_map "ASKPRICE1"
  let ask_price2 ← parse_float fields_map "ASKPRICE2"
  let ask_price3 ← parse_float fields_map "ASKPRICE3"
  let ask_price4 ← parse_float fields_map "ASKPRICE4"
  let ask_price5 ← parse_float fields_map "ASKPRICE5"
  let bid_size1 ← parse_float fields_map "BIDSIZE1"
  let bid_size2 ← parse_float fields_map "BIDSIZE2"
  let bid_size3 ← parse_float fields_map "BIDSIZE3"
  let bid_size4 ← parse_float fields_map "BIDSIZE4"
  let bid_size5 ← parse_float fields_map "BIDSIZE5"
  let ask_size1 ← parse_float fields_map "ASKSIZE1"
  let ask_size2 ← parse_float fields_map "ASKSIZE2"
  let ask_size3 ← parse_float fields_map "ASKSIZE3"
  let ask_size4 ← parse_float fields_map "ASKSIZE4"
  let ask_size5 ← parse_float fields_map "ASKSIZE5"
  let currency0 := get_field fields_map "CURRENCY0"
  let currency1 := get_field fields_map "CURRENCY1"
  let currency2 := get_field fields_map "CURRENCY2"
  let currency3 := get_field fields_map "CURRENCY3"
  let currency4 := get_field fields_map "CURRENCY4"
  let currency5 := get_field fields_map "CURRENCY5"
  let c1_bid_size_1 ← parse_float fields_map "C1BIDSIZE1"
  let c1_bid_size_2 ← parse_float fields_map "C1BIDSIZE2"
  let c1_bid_size_3 ← parse_float fields_map "C1BIDSIZE3"
  let c1_bid_size_4 ← parse_float fields_map "C1BIDSIZE4"
  let c1_bid_size_5 ← parse_float fields_map "C1BIDSIZE5"
  let c2_bid_size_1 ← parse_float fields_map "C2BIDSIZE1"
  let c2_bid_size_2 ← parse_float fields_map "C2BIDSIZE2"
  let c2_bid_size_3 ← parse_float fields_map "C2BIDSIZE3"
  let c2_bid_size_4 ← parse_float fields_map "C2BIDSIZE4"
  let c2_bid_size_5 ← parse_float fields_map "C2BIDSIZE5"
  let c3_bid_size_1 ← parse_float fields_map "C3BIDSIZE1"
  let c3_bid_size_2 ← parse_float fields_map "C3BIDSIZE2"
  let c3_bid_size_3 ← parse_float fields_map "C3BIDSIZE3"
  let c3_bid_size_4 ← parse_float fields_map "C3BIDSIZE4"
  let c3_bid_size_5 ← parse_float fields_map "C3BIDSIZE5"
  let c4_bid_size_1 ← parse_float fields_map "C4BIDSIZE1"
  let c4_bid_size_2 ← parse_float fields_map "C4BIDSIZE2"
  let c4_bid_size_3 ← parse_float fields_map "C4BIDSIZE3"
  let c4_bid_size_4 ← parse_float fields_map "C4BIDSIZE4"
  let c4_bid_size_5 ← parse_float fields_map "C4BIDSIZE5"
  let c5_bid_size_1 ← parse_float fields_map "C5BIDSIZE1"
  let c5_bid_size_2 ← parse_float fields_map "C5BIDSIZE2"
  let c5_bid_size_3 ← parse_float fields_map "C5BIDSIZE3"
  let c5_bid_size_4 ← parse_float fields_map "C5BIDSIZE4"
  let c5_bid_size_5 ← parse_float fields_map "C5BIDSIZE5"
  let c1_ask_size_1 ← parse_float fields_map "C1ASKSIZE1"
  let c1_ask_size_2 ← parse_float fields_map "C1ASKSIZE2"
  let c1_ask_size_3 ← parse_float fields_map "C1ASKSIZE3"
  let c1_ask_size_4 ← parse_float fields_map "C1ASKSIZE4"
  let c1_ask_size_5 ← parse_float fields_map "C1ASKSIZE5"
  let c2_ask_size_1 ← parse_float fields_map "C2ASKSIZE1"
  let c2_ask_size_2 ← parse_float fields_map "C2ASKSIZE2"
  let c2_ask_size_3 ← parse_float fields_map "C2ASKSIZE3"
  let c2_ask_size_4 ← parse_float fields_map "C2ASKSIZE4"
  let c2_ask_size_5 ← parse_float fields_map "C2ASKSIZE5"
  let c3_ask_size_1 ← parse_float fields_map "C3ASKSIZE1"
  let c3_ask_size_2 ← parse_float fields_map "C3ASKSIZE2"
  let c3_ask_size_3 ← parse_float fields_map "C3ASKSIZE3"
  let c3_ask_size_4 ← parse_float fields_map "C3ASKSIZE4"
  let c3_ask_size_5 ← parse_float fields_map "C3ASKSIZE5"
  let c4_ask_size_1 ← parse_float fields_map "C4ASKSIZE1"
  let c4_ask_size_2 ← parse_float fields_map "C4ASKSIZE2"
  let c4_ask_size_3 ← parse_float fields_map "C4ASKSIZE3"
  let c4_ask_size_4 ← parse_float fields_map "C4ASKSIZE4"
  let c4_ask_size_5 ← parse_float fields_map "C4ASKSIZE5"
  let c5_ask_size_1 ← parse_float fields_map "C5ASKSIZE1"
  let c5_ask_size_2 ← parse_float fields_map "C5ASKSIZE2"
  let c5_ask_size_3 ← parse_float fields_map "C5ASKSIZE3"
  let c5_ask_size_4 ← parse_float fields_map "C5ASKSIZE4"
  let c5_ask_size_5 ← parse_float fields_map "C5ASKSIZE5"
  let timestamp ← parse_float fields_map "TIMESTAMP"
  return {
    mid_open, high, low, bid_quote_id, ask_quote_id,
    bid_price1, bid_price2, bid_price3, bid_price4, bid_price5,
    ask_price1, ask_price2, ask_price3, ask_price4, ask_price5,
    bid_size1, bid_size2, bid_size3, bid_size4, bid_size5,
    ask_size1, ask_size2, ask_size3, ask_size4, ask_size5,
    currency0, currency1, currency2, currency3, currency4, currency5,
    c1_bid_size_1, c1_bid_size_2, c1_bid_size_3, c1_bid_size_4, c1_bid_size_5,
    c2_bid_size_1, c2_bid_size_2, c2_bid_size_3, c2_bid_size_4, c2_bid_size_5,
    c3_bid_size_1, c3_bid_size_2, c3_bid_size_3, c3_bid_size_4, c3_bid_size_5,
    c4_bid_size_1, c4_bid_size_2, c4_bid_size_3, c4_bid_size_4, c4_bid_size_5,
    c5_bid_size_1, c5_bid_size_2, c5_bid_size_3, c5_bid_size_4, c5_bid_size_5,
    c1_ask_size_1, c1_ask_size_2, c1_ask_size_3, c1_ask_size_4, c1_ask_size_5,
    c2_ask_size_1, c2_ask_size_2, c2_ask_size_3, c2_ask_size_4, c2_ask_size_5,
    c3_ask_size_1, c3_ask_size_2, c3_ask_size_3, c3_ask_size_4, c3_ask_size_5,
    c4_ask_size_1, c4_ask_size_2, c4_ask_size_3, c4_ask_size_4, c4_ask_size_5,
    c5_ask_size_1, c5_ask_size_2, c5_ask_size_3, c5_ask_size_4, c5_ask_size_5,
    timestamp, dealing_flag }

/-- Raw Update delivered by the external streaming-protocol client
(`lightstreamer_rs::subscription::ItemUpdate`): all current field values,
the changed-field subset and a snapshot flag. -/
structure ItemUpdate where
  item_name : Option String
  item_pos : ℕ
  fields : List (String × Option String)
  changed_fields : List (String × String)
  is_snapshot : Bool

/-- `PriceData` (price.rs): typed record for a price/market update. -/
structure PriceData where
  item_name : String
  item_pos : ℤ
  fields : PriceFields
  changed_fields : PriceFields
  is_snapshot : Bool
  deriving DecidableEq

/-- `PriceData::default()` (derived `Default`): empty name, position 0,
all-`None` field blocks, not a snapshot. -/
def PriceData.default : PriceData where
  item_name := ""
  item_pos := 0
  fields := PriceFields.default
  changed_fields := PriceFields.default
  is_snapshot := false

/-- `PriceData::from_item_update` (price.rs lines 556–583): decodes both
the full field map and the changed-field subset (whose values are wrapped
in `Some` first); either decode error aborts the conversion. -/
def PriceData.from_item_update (item_update : ItemUpdate) :
    Except String PriceData := do
  let item_name := item_update.item_name.getD ""
  let item_pos : ℤ := item_update.item_pos
  let is_snapshot := item_update.is_snapshot
  let fields ← create_price_fields item_update.fields
  let changed_fields_map :=
    item_update.changed_fields.map (fun kv => (kv.1, some kv.2))
  let changed_fields ← create_price_fields changed_fields_map
  return { item_name, item_pos, fields, changed_fields, is_snapshot }

/-- `impl From<&ItemUpdate> for PriceData` (price.rs lines 729–733):
`from_item_update(item_update).unwrap_or_default()` — a decode error is
silently replaced by `PriceData::default()`.  This is the conversion the
forwarding tasks of `market_subscribe` and `price_subscribe` apply to every
raw update before sending the result to the consumer channel. -/
def PriceData.ofItemUpdate (item_update : ItemUpdate) : PriceData :=
  match PriceData.from_item_update item_update with
  | .ok p => p
  | .error _ => PriceData.default

/-! ## Field codec: account records (account.rs) -/

/-- `AccountFields` (account.rs): the typed projection of an account
update's wire field map; every field is numeric. -/
structure AccountFields where
  pnl : Option Decimal
  deposit : Option Decimal
  available_cash : Option Decimal
  pnl_lr : Option Decimal
  pnl_nlr : Option Decimal
  funds : Option Decimal
  margin : Option Decimal
  margin_lr : Option Decimal
  margin_nlr : Option Decimal
  available_to_deal : Option Decimal
  equity : Option Decimal
  equity_used : Option Decimal
  deriving DecidableEq

/-- `AccountData::create_account_fields` (account.rs lines 894–925): every
field is decoded with the same `parse_float` helper as the price codec. -/
def create_account_fields (fields_map : List (String × Option String)) :
    Except String AccountFields := do
  let pnl ← parse_float fields_map "PNL"
  let deposit ← parse_float fields_map "DEPOSIT"
  let available_cash ← parse_float fields_map "AVAILABLE_CASH"
  let pnl_lr ← parse_float fields_map "PNL_LR"
  let pnl_nlr ← parse_float fields_map "PNL_NLR"
  let funds ← parse_float fields_map "FUNDS"
  let margin ← parse_float fields_map "MARGIN"
  let margin_lr ← parse_float fields_map "MARGIN_LR"
  let margin_nlr ← parse_float fields_map "MARGIN_NLR"
  let available_to_deal ← parse_float fields_map "AVAILABLE_TO_DEAL"
  let equity ← parse_float fields_map "EQUITY"
  let equity_used ← parse_float fields_map "EQUITY_USED"
  return {
    pnl, deposit, available_cash, pnl_lr, pnl_nlr, funds, margin,
    margin_lr, margin_nlr, available_to_deal, equity, equity_used }

/-! ## Streaming client: subscription building (client.rs) -/

/-- Item-key construction of `StreamerClient::market_subscribe` (client.rs
lines 761–764): each EPIC is prefixed with the fixed `MARKET:` namespace
tag. -/
def marketItemKeys (epics : List String) : List String :=
  epics.map (fun epic => "MARKET:" ++ epic)

/-! ## Connection Manager (client.rs: `connect_client`, `connect`) -/

/-- `MAX_CONNECTION_ATTEMPTS` (client.rs line 47). -/
def MAX_CONNECTION_ATTEMPTS : ℕ := 3

/-- Outcome of one `connect_direct` call on the external protocol client:
either it returned `Ok` (the connection ran and ended), or it returned an
error whose message is the formatted upstream error.  The attempts of a run
are modelled as a function from the 0-based attempt index to its outcome. -/
inductive ConnAttempt where
  | ok
  | err (msg : String)

/-- The upstream message that `connect_client` treats as a graceful
no-subscriptions termination (client.rs line 1167). -/
def noMoreRequestsMsg : String := "No more requests to fulfill"

/-- `error_msg.contains("No more requests to fulfill")`: Rust substring
containment, as char-list infix. -/
def isNoMoreRequests (error_msg : String) : Bool :=
  decide (noMoreRequestsMsg.toList <:+: error_msg.toList)

/-- Observable log of one `connect_client` run: the final result, how many
connect attempts were made, and the backoff delays (in ms) slept between
attempts, in order. -/
structure ConnectRun where
  result : Except String Unit
  attempts_made : ℕ
  sleeps : List ℕ

/-- One unrolling of the retry loop of `StreamerClient::connect_client`
(client.rs lines 1148–1195).  `retry_interval_millis` and `retry_counter`
are the loop variables; `fuel` is `MAX_CONNECTION_ATTEMPTS - retry_counter`
(the loop guard `retry_counter < MAX_CONNECTION_ATTEMPTS`, made structural).
On failure the loop sleeps the current interval, then advances it by
`200 * retry_counter` capped at 5000 — except before the last allowed
attempt, where it only bumps the counter so the loop guard fails. -/
def connectClientGo (client_type : String) (attempts : ℕ → ConnAttempt)
    (retry_interval_millis retry_counter : ℕ) : ℕ → ConnectRun
  | 0 =>
    { result := .error (client_type ++ ": maximum connection attempts (" ++
        toString MAX_CONNECTION_ATTEMPTS ++ ") exceeded")
      attempts_made := 0
      sleeps := [] }
  | fuel + 1 =>
    match attempts retry_counter with
    | ConnAttempt.ok =>
      { result := .ok (), attempts_made := 1, sleeps := [] }
    | ConnAttempt.err error_msg =>
      if isNoMoreRequests error_msg then
        { result := .ok (), attempts_made := 1, sleeps := [] }
      else if retry_counter < MAX_CONNECTION_ATTEMPTS - 1 then
        let rest := connectClientGo client_type attempts
          (min (retry_interval_millis + 200 * retry_counter) 5000)
          (retry_counter + 1) fuel
        { result := rest.result
          attempts_made := rest.attempts_made + 1
          sleeps := retry_interval_millis :: rest.sleeps }
      else
        { result := .error (client_type ++ ": maximum connection attempts (" ++
            toString MAX_CONNECTION_ATTEMPTS ++ ") exceeded")
          attempts_made := 1
          sleeps := [] }

/-- `StreamerClient::connect_client` (client.rs lines 1143–1210): the
bounded-retry connect loop, starting from a 0 ms interval and attempt 0. -/
def connect_client (client_type : String) (attempts : ℕ → ConnAttempt) :
    ConnectRun :=
  connectClientGo client_type attempts 0 0 MAX_CONNECTION_ATTEMPTS

/-- The backoff delay slept before the k-th retry of `connect_client`
(0-based): the orbit of the loop's interval update
`interval := min (interval + 200 * retry_counter) 5000` started at 0. -/
def backoffDelay : ℕ → ℕ
  | 0 => 0
  | k + 1 => min (backoffDelay k + 200 * k) 5000

/-- Such outcomes as a spawned connection task can have at its join point:
a normal completion carrying the task's `Result`, or a panic (`JoinError`). -/
inductive TaskJoin where
  | completed (r : Except String Unit)
  | panicked

/-- Whether a task join outcome counts as success at `connect`'s join
point: only a normal completion carrying `Ok`. -/
def TaskJoin.isOk : TaskJoin → Bool
  | TaskJoin.completed (.ok _) => true
  | _ => false

/-- `StreamerClient::connect` (client.rs lines 1062–1140), modelled on the
two subscriber flags and the join outcome each class's task would have.
Returns the list of started connection classes and the aggregate result: a
class is started only when its `has_*_stream_subs` flag is set (both
streamer clients are always `Some` after `StreamerClient::new`); no started
class yields `Ok`; otherwise any task error or panic makes the whole call
return the single aggregated error. -/
def StreamerClient.connect
    (has_market_stream_subs has_price_stream_subs : Bool)
    (marketJoin priceJoin : TaskJoin) :
    List String × Except String Unit :=
  let tasks : List (String × TaskJoin) :=
    (if has_market_stream_subs then [("Market", marketJoin)] else []) ++
    (if has_price_stream_subs then [("Price", priceJoin)] else [])
  if tasks.isEmpty then (tasks.map Prod.fst, .ok ())
  else
    let has_error := tasks.any (fun t =>
      match t.2 with
      | TaskJoin.completed (.ok _) => false
      | TaskJoin.completed (.error _) => true
      | TaskJoin.panicked => true)
    if has_error then
      (tasks.map Prod.fst, .error "one or more streaming connections failed")
    else (tasks.map Prod.fst, .ok ())

/-! ## Dynamic Subscription Set (dynamic_streamer.rs)

`DynamicMarketStreamer` is modelled on its observable state: the EPIC
membership set (a duplicate-free list standing for `HashSet<String>`), the
`is_connected` flag, and whether a shutdown signal for a running connection
is stored.  The async operations are modelled sequentially (each public
call runs to completion with its lock acquisitions atomic), and the side
effects a call performs — signalling the running connection, the fixed
grace sleep, and starting a background connection subscribed to a
membership snapshot — are recorded as an event list. -/

/-- Observable state of a `DynamicMarketStreamer`. -/
structure DynamicMarketStreamer where
  epics : List String
  is_connected : Bool
  shutdown_signal_present : Bool
  deriving DecidableEq

/-- Side effects performed by `DynamicMarketStreamer` operations:
`notify_shutdown` is `signal.notify_one()` on the stored shutdown signal;
`sleep_ms` is a timed wait; `start_connection epics` is `start_internal`
building a fresh `StreamerClient`, subscribing it to the snapshot `epics`
via `market_subscribe`, and spawning the background connection task. -/
inductive DynEvent where
  | notify_shutdown
  | sleep_ms (millis : ℕ)
  | start_connection (epics : List String)
  deriving DecidableEq

/-- `DynamicMarketStreamer::start_internal` (dynamic_streamer.rs lines
287–354): with no EPICs it only warns and returns; otherwise it subscribes
a fresh client to the current EPIC snapshot, stores a new shutdown signal,
marks the streamer connected and spawns the connection task. -/
def DynamicMarketStreamer.start_internal (s : DynamicMarketStreamer) :
    DynamicMarketStreamer × List DynEvent :=
  let epics := s.epics
  if epics.isEmpty then (s, [])
  else
    ({ s with is_connected := true, shutdown_signal_present := true },
     [DynEvent.start_connection epics])

/-- `DynamicMarketStreamer::reconnect` (dynamic_streamer.rs lines 263–284):
notify the stored shutdown signal (when one exists), sleep the fixed 500 ms
grace period, then start a new connection from the current membership
snapshot unless it is empty. -/
def DynamicMarketStreamer.reconnect (s : DynamicMarketStreamer) :
    DynamicMarketStreamer × List DynEvent :=
  let evs :=
    (if s.shutdown_signal_present then [DynEvent.notify_shutdown] else []) ++
    [DynEvent.sleep_ms 500]
  let epics := s.epics
  if ¬epics.isEmpty then
    let st := s.start_internal
    (st.1, evs ++ st.2)
  else (s, evs)

/-- `DynamicMarketStreamer::add` (dynamic_streamer.rs lines 134–153): an
already-present EPIC is a no-op returning `Ok`; otherwise it is inserted
and, if the streamer is currently connected, one `reconnect` runs. -/
def DynamicMarketStreamer.add (s : DynamicMarketStreamer) (epic : String) :
    DynamicMarketStreamer × List DynEvent × Except String Unit :=
  if s.epics.contains epic then (s, [], .ok ())
  else
    let s1 := { s with epics := s.epics ++ [epic] }
    if s1.is_connected then
      let r := s1.reconnect
      (r.1, r.2, .ok ())
    else (s1, [], .ok ())

/-- `DynamicMarketStreamer::remove` (dynamic_streamer.rs lines 172–192):
the EPIC is removed from the set; only when something was actually removed
and the streamer is currently connected does one `reconnect` run. -/
def DynamicMarketStreamer.remove (s : DynamicMarketStreamer) (epic : String) :
    DynamicMarketStreamer × List DynEvent × Except String Unit :=
  let was_removed := s.epics.contains epic
  let s1 := { s with epics := s.epics.erase epic }
  if was_removed then
    if s1.is_connected then
      let r := s1.reconnect
      (r.1, r.2, .ok ())
    else (s1, [], .ok ())
  else (s1, [], .ok ())

/-- `DynamicMarketStreamer::clear` (dynamic_streamer.rs lines 208–214):
empties the EPIC set and returns `Ok`; nothing else happens — no shutdown
signal, no sleep, no reconnect, no disconnect. -/
def DynamicMarketStreamer.clear (s : DynamicMarketStreamer) :
    DynamicMarketStreamer × List DynEvent × Except String Unit :=
  ({ s with epics := [] }, [], .ok ())

/-- Whether an event is the start of a (re)connection cycle's rebuild. -/
def DynEvent.isStart : DynEvent → Bool
  | DynEvent.start_connection _ => true
  | _ => false

/-!
# Theorems

One theorem per claim (with a closed witness or counterexample where the
protocol requires one), preceded by helper lemmas shared between claims.
-/

/-- C1: for every numeric field key, the shared numeric decode
(`parse_float`, the closure used for every `f64` field of both
`create_price_fields` and `create_account_fields`) yields no value when
the field's string value is absent or empty, exactly the parsed value when
the string is a well-formed number, and the `Failed to parse` decode error
when the string is nonempty and non-numeric. -/
theorem numeric_decode_trichotomy
    (fields_map : List (String × Option String)) (key : String) :
    ((get_field fields_map key = none ∨ get_field fields_map key = some "") →
      parse_float fields_map key = .ok none) ∧
    (∀ val q, get_field fields_map key = some val → val ≠ "" →
      parseF64 val = some q →
      parse_float fields_map key = .ok (some q)) ∧
    (∀ val, get_field fields_map key = some val → val ≠ "" →
      parseF64 val = none →
      parse_float fields_map key =
        .error ("Failed to parse " ++ key ++ " as float: " ++ val)) := by
  refine ⟨fun h => ?_, fun val q hg hne hp => ?_, fun val hg hne hp => ?_⟩
  · rcases h with h | h <;> simp [parse_float, h]
  · simp [parse_float, hg, hne, hp]
  · simp [parse_float, hg, hne, hp]

/-- Closed instance of `numeric_decode_trichotomy`: a present `100.5`
decodes to exactly 100.5 (the decimal 1005/10), an empty value decodes to
no value, and a non-numeric value is a decode error. -/
theorem numeric_decode_trichotomy_witness :
    parse_float [("HIGH", some "100.5")] "HIGH" =
      .ok (some { num := 1005, den10 := 1 }) ∧
    parse_float [("HIGH", some "")] "HIGH" = .ok none ∧
    parse_float [("LOW", some "abc")] "LOW" =
      .error ("Failed to parse " ++ "LOW" ++ " as float: " ++ "abc") :=
  ⟨(numeric_decode_trichotomy [("HIGH", some "100.5")] "HIGH").2.1
      "100.5" { num := 1005, den10 := 1 } rfl (by decide) (by decide),
   (numeric_decode_trichotomy [("HIGH", some "")] "HIGH").1 (Or.inr rfl),
   (numeric_decode_trichotomy [("LOW", some "abc")] "LOW").2.2
      "abc" rfl (by decide) (by decide)⟩

/-- C2 counterexample: the claim that an undocumented `DLG_FLAG` token
never results in a default record being delivered to the consumer is false.
On the raw update with `DLG_FLAG = "OPEN"`, `from_item_update` does yield
the decode error, but the `From<&ItemUpdate>` conversion — the one the
`market_subscribe`/`price_subscribe` forwarding tasks apply to every update
before sending it to the consumer channel — swallows the error with
`unwrap_or_default()` and produces `PriceData::default()`, which is then
sent to the consumer. -/
theorem unknown_dealing_flag_delivers_default_record :
    PriceData.from_item_update
      ⟨some "A", 1, [("DLG_FLAG", some "OPEN")], [], false⟩ =
      .error "Unknown dealing flag: OPEN" ∧
    PriceData.ofItemUpdate
      ⟨some "A", 1, [("DLG_FLAG", some "OPEN")], [], false⟩ =
      PriceData.default :=
  ⟨rfl, rfl⟩

/-- C2 (amended): each of the nine documented `DLG_FLAG` wire tokens
decodes, by exact case-sensitive match, to its corresponding `DealingFlag`
variant, and an undocumented token always makes the fallible decoder
(`create_price_fields` / `from_item_update`) yield the
`Unknown dealing flag` decode error — no default variant is substituted
there; however, the `From<&ItemUpdate>` conversion that the forwarding
tasks apply replaces that error with `PriceData::default()`, so what the
consumer receives for such an update is the default record, not an
error. -/
theorem dealing_flag_decode (fields_map : List (String × Option String)) :
    (get_field fields_map "DLG_FLAG" = some "CLOSED" →
      parse_dealing_flag fields_map = .ok (some DealingFlag.Closed)) ∧
    (get_field fields_map "DLG_FLAG" = some "CALL" →
      parse_dealing_flag fields_map = .ok (some DealingFlag.Call)) ∧
    (get_field fields_map "DLG_FLAG" = some "DEAL" →
      parse_dealing_flag fields_map = .ok (some DealingFlag.Deal)) ∧
    (get_field fields_map "DLG_FLAG" = some "EDIT" →
      parse_dealing_flag fields_map = .ok (some DealingFlag.Edit)) ∧
    (get_field fields_map "DLG_FLAG" = some "CLOSINGONLY" →
      parse_dealing_flag fields_map = .ok (some DealingFlag.ClosingOnly)) ∧
    (get_field fields_map "DLG_FLAG" = some "DEALNOEDIT" →
      parse_dealing_flag fields_map = .ok (some DealingFlag.DealNoEdit)) ∧
    (get_field fields_map "DLG_FLAG" = some "AUCTION" →
      parse_dealing_flag fields_map = .ok (some DealingFlag.Auction)) ∧
    (get_field fields_map "DLG_FLAG" = some "AUCTIONNOEDIT" →
      parse_dealing_flag fields_map = .ok (some DealingFlag.AuctionNoEdit)) ∧
    (get_field fields_map "DLG_FLAG" = some "SUSPEND" →
      parse_dealing_flag fields_map = .ok (some DealingFlag.Suspend)) ∧
    (∀ tok, get_field fields_map "DLG_FLAG" = some tok →
      tok ∉ dealingFlagTokens →
      parse_dealing_flag fields_map =
        .error ("Unknown dealing flag: " ++ tok)) ∧
    (∀ u tok, get_field u.fields "DLG_FLAG" = some tok →
      tok ∉ dealingFlagTokens →
      PriceData.from_item_update u = .error ("Unknown dealing flag: " ++ tok) ∧
      PriceData.ofItemUpdate u = PriceData.default) := by
  have herr : ∀ m tok, get_field m "DLG_FLAG" = some tok →
      tok ∉ dealingFlagTokens →
      parse_dealing_flag m = .error ("Unknown dealing flag: " ++ tok) := by
    intro m tok hg hnot
    simp only [dealingFlagTokens, List.mem_cons, List.not_mem_nil, or_false,
      not_or] at hnot
    obtain ⟨n1, n2, n3, n4, n5, n6, n7, n8, n9⟩ := hnot
    unfold parse_dealing_flag
    rw [hg]
    split
    all_goals simp_all
  have hcreate : ∀ m tok, get_field m "DLG_FLAG" = some tok →
      tok ∉ dealingFlagTokens →
      create_price_fields m = .error ("Unknown dealing flag: " ++ tok) := by
    intro m tok hg hnot
    unfold create_price_fields
    rw [herr m tok hg hnot]
    rfl
  refine ⟨?_, ?_, ?_, ?_, ?_, ?_, ?_, ?_, ?_, herr fields_map, ?_⟩
  · intro h; simp [parse_dealing_flag, h]
  · intro h; simp [parse_dealing_flag, h]
  · intro h; simp [parse_dealing_flag, h]
  · intro h; simp [parse_dealing_flag, h]
  · intro h; simp [parse_dealing_flag, h]
  · intro h; simp [parse_dealing_flag, h]
  · intro h; simp [parse_dealing_flag, h]
  · intro h; simp [parse_dealing_flag, h]
  · intro h; simp [parse_dealing_flag, h]
  · intro u tok hg hnot
    have hf := hcreate u.fields tok hg hnot
    have hfrom : PriceData.from_item_update u =
        .error ("Unknown dealing flag: " ++ tok) := by
      unfold PriceData.from_item_update
      rw [hf]
      rfl
    exact ⟨hfrom, by unfold PriceData.ofItemUpdate; rw [hfrom]⟩

/-- Closed instance of `dealing_flag_decode`: the `SUSPEND` token decodes
to `DealingFlag::Suspend`, and the undocumented token `OPEN` makes the
fallible decoder error while the consumer-facing conversion yields the
default record. -/
theorem dealing_flag_decode_witness :
    parse_dealing_flag [("DLG_FLAG", some "SUSPEND")] =
      .ok (some DealingFlag.Suspend) ∧
    parse_dealing_flag [("DLG_FLAG", some "OPEN")] =
      .error ("Unknown dealing flag: " ++ "OPEN") ∧
    PriceData.ofItemUpdate
      ⟨some "A", 1, [("DLG_FLAG", some "OPEN")], [], false⟩ =
      PriceData.default :=
  ⟨((dealing_flag_decode [("DLG_FLAG", some "SUSPEND")]).2.2.2.2.2.2.2.2.1) rfl,
   ((dealing_flag_decode [("DLG_FLAG", some "OPEN")]).2.2.2.2.2.2.2.2.2.1)
      "OPEN" rfl (by decide),
   (((dealing_flag_decode []).2.2.2.2.2.2.2.2.2.2)
      ⟨some "A", 1, [("DLG_FLAG", some "OPEN")], [], false⟩
      "OPEN" rfl (by decide)).2⟩

/-- C3 counterexample: the typed record produced for a market subscription
does not carry `bid = Some(100.5)`.  The market path decodes every raw
update with `PriceData`'s `create_price_fields`, whose recognised keys are
the price-ladder ones (`BIDPRICE1`…, `ASKPRICE1`…, …) — `"BID"` and
`"OFFER"` are not among them — so on the field map
`{"BID": "100.5", "OFFER": ""}` the decode succeeds and returns the
all-`None` record `PriceFields::default()`: the value 100.5 (which
`parseF64` does parse exactly) lands in no field of the record, and the
record has no `bid` field at all. -/
theorem market_bid_offer_dropped :
    create_price_fields [("BID", some "100.5"), ("OFFER", some "")] =
      .ok PriceFields.default ∧
    parseF64 "100.5" = some { num := 1005, den10 := 1 } :=
  ⟨rfl, rfl⟩

/-- C3 (amended): for a market subscription with item keys `["A","B"]`
(submitted as `["MARKET:A","MARKET:B"]`), decoding the raw update
`{fields: {"BID": "100.5", "OFFER": ""}}` succeeds and produces a typed
record whose field blocks are entirely `None`: the `OFFER` side indeed
carries no value, but the `BID` value `100.5` is dropped rather than
surfaced, because the market path reuses the price-ladder decoder, which
recognises neither `"BID"` nor `"OFFER"`. -/
theorem market_subscribe_decode_scenario :
    marketItemKeys ["A", "B"] = ["MARKET:A", "MARKET:B"] ∧
    PriceData.ofItemUpdate
      ⟨some "MARKET:A", 1, [("BID", some "100.5"), ("OFFER", some "")], [],
        true⟩ =
      ⟨"MARKET:A", 1, PriceFields.default, PriceFields.default, true⟩ ∧
    create_price_fields [("BID", some "100.5"), ("OFFER", some "")] =
      .ok PriceFields.default :=
  ⟨rfl, rfl, rfl⟩

/-- Helper: complete case analysis of one `connect_client` run.  With an
attempt ceiling of 3, a run makes at most three attempts; an `Ok` or a
graceful no-subscriptions error ends the run successfully, any other error
sleeps the current backoff interval (0 ms, then 0 ms) and retries, and a
third failure is terminal. -/
theorem connect_client_cases (client_type : String)
    (attempts : ℕ → ConnAttempt) :
    connect_client client_type attempts =
      match attempts 0 with
      | ConnAttempt.ok => ⟨.ok (), 1, []⟩
      | ConnAttempt.err m0 =>
        if isNoMoreRequests m0 then ⟨.ok (), 1, []⟩
        else
          match attempts 1 with
          | ConnAttempt.ok => ⟨.ok (), 2, [0]⟩
          | ConnAttempt.err m1 =>
            if isNoMoreRequests m1 then ⟨.ok (), 2, [0]⟩
            else
              match attempts 2 with
              | ConnAttempt.ok => ⟨.ok (), 3, [0, 0]⟩
              | ConnAttempt.err m2 =>
                if isNoMoreRequests m2 then ⟨.ok (), 3, [0, 0]⟩
                else
                  ⟨.error (client_type ++ ": maximum connection attempts (" ++
                    toString MAX_CONNECTION_ATTEMPTS ++ ") exceeded"),
                   3, [0, 0]⟩ := by
  rcases h0 : attempts 0 with _ | m0 <;>
    rcases h1 : attempts 1 with _ | m1 <;>
      rcases h2 : attempts 2 with _ | m2 <;>
        simp [connect_client, connectClientGo, MAX_CONNECTION_ATTEMPTS,
          h0, h1, h2] <;>
          split_ifs <;> rfl

/-- C4: in every `connect_client` run, the k-th backoff delay slept between
attempts is `backoffDelay k`, the orbit of the loop's own update rule:
it starts at 0 ms (`backoffDelay 0 = 0`), each retry advances it by
`200 ms × attempt_index` capped at 5000 ms
(`backoffDelay (k+1) = min (backoffDelay k + 200·k) 5000`), and the
resulting sequence is non-decreasing and never exceeds 5000 ms. -/
theorem connect_client_backoff_schedule (client_type : String)
    (attempts : ℕ → ConnAttempt) :
    (connect_client client_type attempts).sleeps =
      (List.range (connect_client client_type attempts).sleeps.length).map
        backoffDelay ∧
    backoffDelay 0 = 0 ∧
    (∀ k, backoffDelay (k + 1) = min (backoffDelay k + 200 * k) 5000) ∧
    (∀ k, backoffDelay k ≤ 5000) ∧
    (∀ k, backoffDelay k ≤ backoffDelay (k + 1)) := by
  have cap : ∀ k, backoffDelay k ≤ 5000 := by
    intro k
    cases k with
    | zero => simp [backoffDelay]
    | succ n => simp [backoffDelay]
  refine ⟨?_, rfl, fun k => rfl, cap, fun k => ?_⟩
  · rw [connect_client_cases]
    rcases attempts 0 with _ | m0
    · rfl
    · rcases attempts 1 with _ | m1 <;> rcases attempts 2 with _ | m2 <;>
        by_cases g0 : isNoMoreRequests m0 <;>
          simp_all [backoffDelay, List.range_succ] <;> split_ifs <;>
            simp [backoffDelay, List.range_succ]
  · calc backoffDelay k ≤ min (backoffDelay k + 200 * k) 5000 :=
          le_min (Nat.le_add_right _ _) (cap k)
    _ = backoffDelay (k + 1) := rfl

/-- C5: when every connect attempt fails and none is the graceful
no-subscriptions case, `connect_client` performs exactly
`MAX_CONNECTION_ATTEMPTS = 3` attempts and then returns the terminal
maximum-attempts error. -/
theorem connect_client_retry_ceiling (client_type : String)
    (attempts : ℕ → ConnAttempt)
    (hnotok : ∀ k, attempts k ≠ ConnAttempt.ok)
    (hnograce : ∀ k m, attempts k = ConnAttempt.err m →
      isNoMoreRequests m = false) :
    (connect_client client_type attempts).attempts_made =
      MAX_CONNECTION_ATTEMPTS ∧
    (connect_client client_type attempts).result =
      .error (client_type ++ ": maximum connection attempts (" ++
        toString MAX_CONNECTION_ATTEMPTS ++ ") exceeded") := by
  rw [connect_client_cases]
  rcases h0 : attempts 0 with _ | m0
  · exact absurd h0 (hnotok 0)
  · rcases h1 : attempts 1 with _ | m1
    · exact absurd h1 (hnotok 1)
    · rcases h2 : attempts 2 with _ | m2
      · exact absurd h2 (hnotok 2)
      · simp [hnograce 0 m0 h0, hnograce 1 m1 h1, hnograce 2 m2 h2,
          MAX_CONNECTION_ATTEMPTS]

/-- Closed instance of `connect_client_retry_ceiling`: with every attempt
failing with `connection refused`, the run makes exactly 3 attempts and
ends in the terminal error. -/
theorem connect_client_retry_ceiling_witness :
    (connect_client "Market"
      (fun _ => ConnAttempt.err "connection refused")).attempts_made =
      MAX_CONNECTION_ATTEMPTS ∧
    (connect_client "Market"
      (fun _ => ConnAttempt.err "connection refused")).result =
      .error ("Market" ++ ": maximum connection attempts (" ++
        toString MAX_CONNECTION_ATTEMPTS ++ ") exceeded") :=
  connect_client_retry_ceiling "Market"
    (fun _ => ConnAttempt.err "connection refused")
    (fun _ h => by cases h)
    (fun _ m h => by cases h; decide)

/-- C6: whenever the run reaches an attempt whose failure message contains
`No more requests to fulfill` (the upstream no-active-subscriptions
reason), `connect_client` returns `Ok` right there: the run ends
successfully after that attempt, with no further retry and no error
surfaced. -/
theorem connect_client_graceful_close (client_type : String)
    (attempts : ℕ → ConnAttempt) (k : ℕ) (hk : k < MAX_CONNECTION_ATTEMPTS)
    (hbefore : ∀ j, j < k → ∃ m, attempts j = ConnAttempt.err m ∧
      isNoMoreRequests m = false)
    (hgrace : ∃ m, attempts k = ConnAttempt.err m ∧ isNoMoreRequests m = true) :
    (connect_client client_type attempts).result = .ok () ∧
    (connect_client client_type attempts).attempts_made = k + 1 := by
  obtain ⟨m, hm, hg⟩ := hgrace
  rw [connect_client_cases]
  simp only [MAX_CONNECTION_ATTEMPTS] at hk
  interval_cases k
  · simp [hm, hg]
  · obtain ⟨m0, hm0, hg0⟩ := hbefore 0 (by norm_num)
    simp [hm0, hg0, hm, hg]
  · obtain ⟨m0, hm0, hg0⟩ := hbefore 0 (by norm_num)
    obtain ⟨m1, hm1, hg1⟩ := hbefore 1 (by norm_num)
    simp [hm0, hg0, hm1, hg1, hm, hg]

/-- Closed instance of `connect_client_graceful_close`: a first attempt
failing with an ordinary error and a second attempt failing with the
no-subscriptions reason end the run successfully after 2 attempts. -/
theorem connect_client_graceful_close_witness :
    (connect_client "Price"
      (fun j => if j = 0 then ConnAttempt.err "connection refused"
        else ConnAttempt.err
          "IllegalStateException: No more requests to fulfill")).result =
      .ok () ∧
    (connect_client "Price"
      (fun j => if j = 0 then ConnAttempt.err "connection refused"
        else ConnAttempt.err
          "IllegalStateException: No more requests to fulfill")).attempts_made =
      1 + 1 :=
  connect_client_graceful_close "Price" _ 1 (by decide)
    (fun j hj => by
      interval_cases j
      exact ⟨"connection refused", rfl, by decide⟩)
    ⟨"IllegalStateException: No more requests to fulfill", rfl, by decide⟩

/-- C9: `StreamerClient::connect` starts a connection task exactly for the
classes whose subscriber flag is set (a class with zero recorded
subscribers is never started); it returns `Ok` precisely when every
started task joins with a non-error, non-panic result — in particular when
no class was started at all — and any task error or panic is aggregated
into the single `one or more streaming connections failed` error. -/
theorem connect_starts_only_subscribed_and_aggregates
    (has_market_stream_subs has_price_stream_subs : Bool)
    (marketJoin priceJoin : TaskJoin) :
    (StreamerClient.connect has_market_stream_subs has_price_stream_subs
      marketJoin priceJoin).1 =
      (if has_market_stream_subs then ["Market"] else []) ++
      (if has_price_stream_subs then ["Price"] else []) ∧
    ((StreamerClient.connect has_market_stream_subs has_price_stream_subs
      marketJoin priceJoin).2 = .ok () ↔
      ((has_market_stream_subs = true → marketJoin.isOk = true) ∧
       (has_price_stream_subs = true → priceJoin.isOk = true))) ∧
    ((StreamerClient.connect has_market_stream_subs has_price_stream_subs
      marketJoin priceJoin).2 = .ok () ∨
     (StreamerClient.connect has_market_stream_subs has_price_stream_subs
      marketJoin priceJoin).2 =
      .error "one or more streaming connections failed") := by
  rcases marketJoin with ⟨_ | _⟩ | _ <;> rcases priceJoin with ⟨_ | _⟩ | _ <;>
    cases has_market_stream_subs <;> cases has_price_stream_subs <;>
      simp [StreamerClient.connect, TaskJoin.isOk]

/-- C7: for every state of the Dynamic Subscription Set, `add(k)` with `k`
already a member, and `remove(k)` with `k` absent, return `Ok`, leave the
membership set (and the whole state) unchanged, and perform no side effect
at all — in particular no reconnect. -/
theorem membership_changes_idempotent (s : DynamicMarketStreamer)
    (epic : String) :
    (s.epics.contains epic = true → s.add epic = (s, [], .ok ())) ∧
    (s.epics.contains epic = false → s.remove epic = (s, [], .ok ())) := by
  constructor
  · intro h
    simp only [DynamicMarketStreamer.add, h, eq_self_iff_true, if_true]
  · intro h
    have hnm : epic ∉ s.epics := by simpa using h
    simp only [DynamicMarketStreamer.remove, h, Bool.false_eq_true,
      if_false, List.erase_of_not_mem hnm]

/-- Closed instance of `membership_changes_idempotent`: with membership
`{"A"}` while connected, `add("A")` and `remove("B")` are no-ops with no
events. -/
theorem membership_changes_idempotent_witness :
    DynamicMarketStreamer.add ⟨["A"], true, true⟩ "A" =
      (⟨["A"], true, true⟩, [], .ok ()) ∧
    DynamicMarketStreamer.remove ⟨["A"], true, true⟩ "B" =
      (⟨["A"], true, true⟩, [], .ok ()) :=
  ⟨(membership_changes_idempotent ⟨["A"], true, true⟩ "A").1 (by decide),
   (membership_changes_idempotent ⟨["A"], true, true⟩ "B").2 (by decide)⟩

/-- C8: starting from membership `{"A"}` with an active connection (and
its stored shutdown signal), one `add("B")` performs exactly one reconnect
cycle — signal the running connection to stop, sleep the 500 ms grace
period, rebuild — and the rebuilt subscription is taken from the
membership snapshot `{"A","B"}`; the event trace contains exactly one
connection start, i.e. no second reconnect happens for that one change. -/
theorem add_while_connected_single_reconnect :
    DynamicMarketStreamer.add ⟨["A"], true, true⟩ "B" =
      (⟨["A", "B"], true, true⟩,
       [DynEvent.notify_shutdown, DynEvent.sleep_ms 500,
        DynEvent.start_connection ["A", "B"]],
       .ok ()) ∧
    ((DynamicMarketStreamer.add ⟨["A"], true, true⟩ "B").2.1.filter
      DynEvent.isStart) = [DynEvent.start_connection ["A", "B"]] :=
  ⟨rfl, rfl⟩

/-- C10: in every state — connected or not — `clear()` empties the
membership set and returns `Ok`, but performs no side effect whatsoever:
no shutdown signal, no grace sleep, no reconnect, no disconnect, and the
`is_connected` flag and stored shutdown signal of the live connection are
left untouched (unlike `remove`, which reconnects on a membership
change). -/
theorem clear_performs_no_reconnect (s : DynamicMarketStreamer) :
    s.clear =
      (⟨[], s.is_connected, s.shutdown_signal_present⟩, [], .ok ()) :=
  rfl

end IgClient
